import Mathlib

/-!
Verification of the resilient batch-fetch engine of `lm_dpl.clients.restclient`.

The Python source is shallowly embedded: network interaction is abstracted
into oracles (one `AttemptResult` per attempt index for the worker, one
`ProbeResult` per endpoint for the connectivity probe), while the control
flow of `_fetch_data_batch`, `RESTFetcher.get_total_count`,
`RESTFetcher.fetch_data`, `RESTFetcher.retry_failed_batches` and
`LandmapperRESTClient.test_endpoints` is translated faithfully from the
source.  File output and logging are side effects outside the embedding;
the ledger file write is modelled by the `ledgerEntry` field of the
returned trace.
-/

namespace LmDpl

/-- What the network/parse pipeline of one attempt inside `_fetch_data_batch`
yields: the empty-body check (line 61), the service-reported error payload
(line 76), a raised `requests.exceptions.RequestException` (line 104), a
raised `ValueError` from JSON decoding (line 116), any other exception
(line 134), or a successfully parsed body whose `features` entry (defaulting
to `[]`) is the `ok` payload. -/
inductive AttemptResult (α : Type) where
  | emptyResponse : AttemptResult α
  | serviceError (msg : String) : AttemptResult α
  | requestError (msg : String) : AttemptResult α
  | jsonError (msg : String) : AttemptResult α
  | unexpectedError (msg : String) : AttemptResult α
  | ok (features : List α) : AttemptResult α
deriving DecidableEq

/-- The structured dictionary returned by `_fetch_data_batch`
(`status`, `offset`, `batch_size`, `attempts`, `error`, `features`). -/
structure BatchOutcome (α : Type) where
  status : String
  offset : Int
  batch_size : Int
  attempts : Nat
  error : Option String
  features : List α
deriving DecidableEq

/-- The `error` string `_fetch_data_batch` builds for each terminal failure
class (lines 70, 85, 113, 131, 145). -/
def attemptError {α : Type} : AttemptResult α → Option String
  | .emptyResponse => some ("Empty response")
  | .serviceError msg => some ("Service error: " ++ msg)
  | .requestError msg => some ("Request error: " ++ msg)
  | .jsonError msg => some ("JSON decode error: " ++ msg)
  | .unexpectedError msg => some ("Unexpected error: " ++ msg)
  | .ok _ => none

/-- The retry loop of `_fetch_data_batch` (lines 39-156).  `m` is
`max_retries`, `r` is the number of loop iterations that remain, so the
current Python `attempt` index is `m - r`.  A non-`ok` attempt `continue`s
while `attempt < max_retries - 1` (that is, while `r > 1`) and otherwise
returns the failure outcome for its class; an `ok` attempt returns the
success outcome immediately.  The `r = 0` base case is the `return` after
the `for` loop (lines 149-156), reachable only when the loop body never
returns (in Python: only for `range(0)`). -/
def fetchBatchGo {α : Type} (o : Nat → AttemptResult α) (off bs : Int) (m : Nat) :
    Nat → BatchOutcome α
  | 0 => ⟨"failed", off, bs, m, some ("Max retries exceeded"), []⟩
  | r + 1 =>
    match o (m - (r + 1)) with
    | .ok fs => ⟨"success", off, bs, (m - (r + 1)) + 1, none, fs⟩
    | res =>
      if r = 0 then ⟨"failed", off, bs, (m - (r + 1)) + 1, attemptError res, []⟩
      else fetchBatchGo o off bs m r

/-- `_fetch_data_batch` (restclient.py lines 20-156): `max_retries = 5`
attempts against the oracle `o`, echoing `offset` and `batch_size`. -/
def fetch_data_batch {α : Type} (o : Nat → AttemptResult α) (off bs : Int) :
    BatchOutcome α :=
  fetchBatchGo o off bs 5 5

/-- The test `batch_result["status"] == "success"` used by the coordinator
(lines 273, 301, 419). -/
def isSuccess {α : Type} (b : BatchOutcome α) : Bool := b.status == "success"

/-- What the count-only request of `get_total_count` (lines 191-198) comes
back with: `failure` is any exception raised up to and including
`response.json()` (caught at line 200); `success c` is a parsed JSON body
whose optional `count` entry is `c`. -/
inductive CountResponse where
  | failure : CountResponse
  | success (count : Option Int) : CountResponse

/-- `RESTFetcher.get_total_count` (lines 184-202): on success the Python
code returns `data.get("count", 0)`; on any exception it returns `None`. -/
def get_total_count : CountResponse → Option Int
  | .failure => none
  | .success c => some (c.getD 0)

/-- `num_batches = (total_count + batch_size - 1) // batch_size`
(line 231); Python `//` is floor division, i.e. `Int.fdiv`. -/
def numBatches (total bs : Int) : Int := (total + bs - 1).fdiv bs

/-- The batch-window plan of `fetch_data` (lines 231-242): for
`i in range(num_batches)` a window `(offset = i * batch_size, batch_size)`.
Python's `range` of a non-positive number is empty, hence `Int.toNat`. -/
def batchWindows (total bs : Int) : List (Int × Int) :=
  (List.range (numBatches total bs).toNat).map
    (fun i : Nat => ((i : Int) * bs, bs))

/-- One wave of the worker pool: `pool.imap(_fetch_data_batch, args)`
(lines 256-265 and 288-296).  `imap` yields results in argument order, so a
wave is a map over the dispatched windows; the oracle `net` gives each
offset its per-attempt network behaviour. -/
def runWave {α : Type} (net : Int → Nat → AttemptResult α)
    (ws : List (Int × Int)) : List (BatchOutcome α) :=
  ws.map (fun w => fetch_data_batch (net w.1) w.1 w.2)

/-- Initial wave of `fetch_data` (lines 256-265) over the planned windows. -/
def fetchWave1 {α : Type} (total bs : Int) (o1 : Int → Nat → AttemptResult α) :
    List (BatchOutcome α) :=
  runWave o1 (batchWindows total bs)

/-- `failed_batches` after the initial wave (lines 269-277). -/
def fetchFailed1 {α : Type} (total bs : Int) (o1 : Int → Nat → AttemptResult α) :
    List (BatchOutcome α) :=
  (fetchWave1 total bs o1).filter (fun b => !(isSuccess b))

/-- The automatic recovery wave (lines 284-296): re-dispatch exactly the
failed batches' `(offset, batch_size)` windows under a fresh worker call. -/
def fetchWave2 {α : Type} (total bs : Int)
    (o1 o2 : Int → Nat → AttemptResult α) : List (BatchOutcome α) :=
  runWave o2 ((fetchFailed1 total bs o1).map (fun b => (b.offset, b.batch_size)))

/-- `persistent_failures` after the recovery wave (lines 298-306). -/
def fetchPersistent {α : Type} (total bs : Int)
    (o1 o2 : Int → Nat → AttemptResult α) : List (BatchOutcome α) :=
  (fetchWave2 total bs o1 o2).filter (fun b => !(isSuccess b))

/-- The `failure_log` dictionary written at lines 312-319 (the volatile
`timestamp`, `service_url` and `params` fields are omitted). -/
structure FailureLedgerEntry (α : Type) where
  total_batches : Int
  successful_batches : Nat
  persistent_failures : List (BatchOutcome α)
deriving DecidableEq

/-- Observable outcome of one `fetch_data` run: the returned value
(`none` models Python `None`), the windows dispatched to the initial wave,
and the failure-ledger entry (`some` exactly when lines 311-327 write the
`failed_batches_*.json` file). -/
structure FetchTrace (α : Type) where
  result : Option (List α)
  dispatched : List (Int × Int)
  ledgerEntry : Option (FailureLedgerEntry α)
deriving DecidableEq

/-- `RESTFetcher.fetch_data` (lines 204-347).  A failed count aborts before
planning (lines 225-227).  `batch_size = 0` raises `ZeroDivisionError` at
line 231, caught by the handler at line 345, which returns `None` — also
before any window is planned or dispatched.  Otherwise `all_features` is
the in-order concatenation of the features of the initial wave's successes
(lines 272-275) followed by those of the recovery wave's successes
(lines 300-303), the ledger entry is written iff `persistent_failures` is
non-empty (line 311), and the merged collection is returned (line 343). -/
def fetch_data {α : Type} (c : CountResponse) (bs : Int)
    (o1 o2 : Int → Nat → AttemptResult α) : FetchTrace α :=
  match get_total_count c with
  | none => ⟨none, [], none⟩
  | some total =>
    if bs = 0 then ⟨none, [], none⟩
    else
      ⟨some ((((fetchWave1 total bs o1).filter isSuccess).map
                (fun b => b.features)).flatten
              ++ (((fetchWave2 total bs o1 o2).filter isSuccess).map
                (fun b => b.features)).flatten),
       batchWindows total bs,
       if (fetchPersistent total bs o1 o2).isEmpty then none
       else some ⟨numBatches total bs,
                  ((fetchWave1 total bs o1).filter isSuccess).length
                    + ((fetchWave2 total bs o1 o2).filter isSuccess).length,
                  fetchPersistent total bs o1 o2⟩⟩

/-- The parsed content of the `failure_log_file` given to
`retry_failed_batches`: a missing file (line 445), an unreadable or
structurally invalid one (lines 448-453), or a loaded log whose
`persistent_failures` list is `pf`. -/
inductive LedgerFile (α : Type) where
  | missing : LedgerFile α
  | invalid : LedgerFile α
  | entry (pf : List (BatchOutcome α)) : LedgerFile α

/-- The replay outcomes of `retry_failed_batches` (lines 387-411): one
fresh worker call per recorded failed batch, at its recorded
`(offset, batch_size)` window. -/
def retryOutcomes {α : Type} (pf : List (BatchOutcome α))
    (net : Int → Nat → AttemptResult α) : List (BatchOutcome α) :=
  pf.map (fun b => fetch_data_batch (net b.offset) b.offset b.batch_size)

/-- The `still_failed` list of `retry_failed_batches` (lines 416-424): it is
only printed (lines 424, 428), never part of the returned value. -/
def retryStillFailed {α : Type} (pf : List (BatchOutcome α))
    (net : Int → Nat → AttemptResult α) : List (BatchOutcome α) :=
  (retryOutcomes pf net).filter (fun b => !(isSuccess b))

/-- `RESTFetcher.retry_failed_batches` (lines 368-453).  Missing or invalid
log files return `None`.  An empty `persistent_failures` list makes
`multiprocessing.Pool(processes=min(max_processes, 0))` at line 403 raise
`ValueError`, caught at line 451, so the call returns `None`.  Otherwise the
returned `FeatureCollection` holds exactly the features of the replays that
now succeed (lines 418-421, 431, 443); the still-failing replays are not in
the returned value. -/
def retry_failed_batches {α : Type} (f : LedgerFile α)
    (net : Int → Nat → AttemptResult α) : Option (List α) :=
  match f with
  | .missing => none
  | .invalid => none
  | .entry pf =>
    if pf.isEmpty then none
    else some ((((retryOutcomes pf net).filter isSuccess).map
      (fun b => b.features)).flatten)

/-- What one probe request inside `test_endpoints` (lines 655-746) runs
into: a parsed response carrying its status code, elapsed seconds and the
presence of `count` / `features` / `error` keys; a `Timeout`; a
`ConnectionError`; an `HTTPError` (which occurs after the response and its
elapsed time exist, lines 663-667); or any other exception. -/
inductive ProbeResult where
  | okResponse (statusCode : Int) (elapsed : ℚ)
      (hasCount hasFeatures hasError : Bool) : ProbeResult
  | timedOut : ProbeResult
  | connFailed : ProbeResult
  | httpError (statusCode : Int) (elapsed : ℚ) (msg : String) : ProbeResult
  | unexpectedErr (msg : String) : ProbeResult
deriving DecidableEq

/-- One per-service entry of the connectivity report (lines 672-746). -/
structure ProbeEntry where
  status : String
  status_code : Option Int
  response_time : Option ℚ
  error : Option String
  url : String
deriving DecidableEq

/-- Builds one service's report entry from its probe result, following the
branches of `test_endpoints`: response-structure validation at line 671,
timeout handler at lines 696-705 (`response_time` is set to the `timeout`
parameter `t`), connection handler at lines 707-716, HTTP-error handler at
lines 718-735, generic handler at lines 737-746.  The Python
invalid-structure message interpolates the response body; the body text is
abstracted away here. -/
def probeService (t : Int) (url : String) : ProbeResult → ProbeEntry
  | .okResponse code elapsed hasCount hasFeatures hasError =>
    if hasCount || hasFeatures || !hasError then
      ⟨"success", some code, some elapsed, none, url⟩
    else
      ⟨"error", some code, some elapsed, some ("Invalid response structure"), url⟩
  | .timedOut =>
    ⟨"error", none, some ((t : Int) : ℚ),
      some ("Request timeout after " ++ toString t ++ " seconds"), url⟩
  | .connFailed =>
    ⟨"error", none, some 0, some ("Connection failed - endpoint unreachable"), url⟩
  | .httpError code elapsed msg =>
    ⟨"error", some code, some elapsed, some ("HTTP Error: " ++ msg), url⟩
  | .unexpectedErr msg =>
    ⟨"error", none, some 0, some ("Unexpected error: " ++ msg), url⟩

/-- `LandmapperRESTClient.test_endpoints` (lines 597-768) restricted to its
per-endpoint results: every configured service is probed in turn — every
handler ends by recording the entry and continuing the loop, so no probe
outcome aborts the remaining endpoints. -/
def test_endpoints (t : Int) (services : List String)
    (net : String → ProbeResult) : List (String × ProbeEntry) :=
  services.map (fun s => (s, probeService t s (net s)))

/-- Fixture: a worker oracle whose every attempt raises a transport error. -/
def alwaysRequestError : Nat → AttemptResult Nat :=
  fun _ => .requestError ("connection reset")

/-- Fixture: a worker oracle failing attempts 0 and 1, succeeding on 2. -/
def failTwiceThenOk : Nat → AttemptResult Nat :=
  fun j => if j < 2 then .emptyResponse else .ok [7]

/-- Fixture: a network where every window fails every attempt. -/
def netAllFail : Int → Nat → AttemptResult Nat :=
  fun _ _ => .requestError ("service down")

/-- Fixture: a network where every window succeeds with no features. -/
def netAllOkEmpty : Int → Nat → AttemptResult Nat :=
  fun _ _ => .ok []

/-- Fixture: window at offset 0 succeeds with three features, any other
window fails every attempt. -/
def netFirstWindowOk : Int → Nat → AttemptResult Nat :=
  fun off _ => if off = 0 then .ok [1, 2, 3] else .requestError ("service down")

/-- Fixture: window at offset 0 fails every attempt, any other window
succeeds with no features. -/
def netZeroFails : Int → Nat → AttemptResult Nat :=
  fun off _ => if off = 0 then .requestError ("service down") else .ok []

/-- Fixture: a recorded failed batch at offset 0. -/
def failedBatchAt0 : BatchOutcome Nat :=
  ⟨"failed", 0, 2000, 5, some ("Request error: service down"), []⟩

/-- Fixture: a recorded failed batch at offset 2000. -/
def failedBatchAt2000 : BatchOutcome Nat :=
  ⟨"failed", 2000, 2000, 5, some ("Request error: service down"), []⟩

/-- Fixture: a probe network where the service named "taxlots" times out
and every other service answers a valid count response. -/
def probeNetTaxlotsTimesOut : String → ProbeResult :=
  fun s => if s = "taxlots" then .timedOut
    else .okResponse 200 1 true false false

end LmDpl

namespace LmDpl

lemma fetchBatchGo_ok {α : Type} (o : Nat → AttemptResult α) (off bs : Int)
    (m r : Nat) (fs : List α) (h : o (m - (r + 1)) = .ok fs) :
    fetchBatchGo o off bs m (r + 1) = ⟨"success", off, bs, (m - (r + 1)) + 1, none, fs⟩ := by
  simp [fetchBatchGo, h]

lemma fetchBatchGo_step {α : Type} (o : Nat → AttemptResult α) (off bs : Int)
    (m r : Nat) (h : ∀ fs, o (m - (r + 2)) ≠ .ok fs) :
    fetchBatchGo o off bs m (r + 2) = fetchBatchGo o off bs m (r + 1) := by
  cases e : o (m - (r + 2)) with
  | ok fs => exact absurd e (h fs)
  | emptyResponse => simp [fetchBatchGo, e]
  | serviceError msg => simp [fetchBatchGo, e]
  | requestError msg => simp [fetchBatchGo, e]
  | jsonError msg => simp [fetchBatchGo, e]
  | unexpectedError msg => simp [fetchBatchGo, e]

lemma fetchBatchGo_last {α : Type} (o : Nat → AttemptResult α) (off bs : Int)
    (m : Nat) (h : ∀ fs, o (m - 1) ≠ .ok fs) :
    fetchBatchGo o off bs m 1 = ⟨"failed", off, bs, (m - 1) + 1, attemptError (o (m - 1)), []⟩ := by
  cases e : o (m - 1) with
  | ok fs => exact absurd e (h fs)
  | emptyResponse => simp [fetchBatchGo, e, attemptError]
  | serviceError msg => simp [fetchBatchGo, e, attemptError]
  | requestError msg => simp [fetchBatchGo, e, attemptError]
  | jsonError msg => simp [fetchBatchGo, e, attemptError]
  | unexpectedError msg => simp [fetchBatchGo, e, attemptError]

lemma fetchBatchGo_echo {α : Type} (o : Nat → AttemptResult α) (off bs : Int)
    (m : Nat) : ∀ r, (fetchBatchGo o off bs m r).offset = off
      ∧ (fetchBatchGo o off bs m r).batch_size = bs := by
  intro r
  induction r with
  | zero => exact ⟨rfl, rfl⟩
  | succ n ih =>
    by_cases hok : ∃ fs, o (m - (n + 1)) = .ok fs
    · obtain ⟨fs, e⟩ := hok
      rw [fetchBatchGo_ok o off bs m n fs e]
      exact ⟨rfl, rfl⟩
    · push_neg at hok
      rcases Nat.eq_zero_or_pos n with hn | hn
      · subst hn
        rw [fetchBatchGo_last o off bs m hok]
        exact ⟨rfl, rfl⟩
      · obtain ⟨k, rfl⟩ : ∃ k, n = k + 1 := ⟨n - 1, by omega⟩
        rw [fetchBatchGo_step o off bs m k hok]
        exact ih

lemma fetchBatchGo_status {α : Type} (o : Nat → AttemptResult α) (off bs : Int)
    (m : Nat) : ∀ r, (fetchBatchGo o off bs m r).status = "success"
      ∨ (fetchBatchGo o off bs m r).status = "failed" := by
  intro r
  induction r with
  | zero => exact Or.inr rfl
  | succ n ih =>
    by_cases hok : ∃ fs, o (m - (n + 1)) = .ok fs
    · obtain ⟨fs, e⟩ := hok
      rw [fetchBatchGo_ok o off bs m n fs e]
      exact Or.inl rfl
    · push_neg at hok
      rcases Nat.eq_zero_or_pos n with hn | hn
      · subst hn
        rw [fetchBatchGo_last o off bs m hok]
        exact Or.inr rfl
      · obtain ⟨k, rfl⟩ : ∃ k, n = k + 1 := ⟨n - 1, by omega⟩
        rw [fetchBatchGo_step o off bs m k hok]
        exact ih

lemma fetchBatchGo_attempts_le {α : Type} (o : Nat → AttemptResult α)
    (off bs : Int) (m : Nat) :
    ∀ r, r ≤ m → (fetchBatchGo o off bs m r).attempts ≤ m := by
  intro r
  induction r with
  | zero => intro _; exact Nat.le_refl m
  | succ n ih =>
    intro hr
    by_cases hok : ∃ fs, o (m - (n + 1)) = .ok fs
    · obtain ⟨fs, e⟩ := hok
      rw [fetchBatchGo_ok o off bs m n fs e]
      show (m - (n + 1)) + 1 ≤ m
      omega
    · push_neg at hok
      rcases Nat.eq_zero_or_pos n with hn | hn
      · subst hn
        rw [fetchBatchGo_last o off bs m hok]
        show (m - 1) + 1 ≤ m
        omega
      · obtain ⟨k, rfl⟩ : ∃ k, n = k + 1 := ⟨n - 1, by omega⟩
        rw [fetchBatchGo_step o off bs m k hok]
        exact ih (by omega)

end LmDpl

namespace LmDpl

/-- Claim C2: the batch worker never raises — for every oracle it returns a
structured outcome whose status is "success" or "failed" — and when all 5
attempts fail it returns `status="failed"`, `attempts=5`, an empty feature
list, and an error string that is either "Max retries exceeded" or a
message naming the specific failure class (empty response, service error,
request error, JSON decode error, unexpected error). -/
theorem C2_worker_total_failure {α : Type} (o : Nat → AttemptResult α)
    (off bs : Int) (hfail : ∀ i, i < 5 → ∀ fs, o i ≠ .ok fs) :
    (fetch_data_batch o off bs).status = "failed"
    ∧ (fetch_data_batch o off bs).attempts = 5
    ∧ (fetch_data_batch o off bs).features = []
    ∧ ∃ e, (fetch_data_batch o off bs).error = some e
        ∧ (e = "Max retries exceeded" ∨ e = "Empty response"
           ∨ (∃ s, e = "Service error: " ++ s)
           ∨ (∃ s, e = "Request error: " ++ s)
           ∨ (∃ s, e = "JSON decode error: " ++ s)
           ∨ (∃ s, e = "Unexpected error: " ++ s)) := by
  have h : fetch_data_batch o off bs
      = ⟨"failed", off, bs, 5, attemptError (o 4), []⟩ := by
    show fetchBatchGo o off bs 5 5 = _
    rw [fetchBatchGo_step o off bs 5 3 (hfail 0 (by omega)),
        fetchBatchGo_step o off bs 5 2 (hfail 1 (by omega)),
        fetchBatchGo_step o off bs 5 1 (hfail 2 (by omega)),
        fetchBatchGo_step o off bs 5 0 (hfail 3 (by omega)),
        fetchBatchGo_last o off bs 5 (hfail 4 (by omega))]
  rw [h]
  refine ⟨rfl, rfl, rfl, ?_⟩
  cases e4 : o 4 with
  | ok fs => exact absurd e4 (hfail 4 (by omega) fs)
  | emptyResponse => exact ⟨"Empty response", rfl, Or.inr (Or.inl rfl)⟩
  | serviceError s =>
    exact ⟨"Service error: " ++ s, rfl, Or.inr (Or.inr (Or.inl ⟨s, rfl⟩))⟩
  | requestError s =>
    exact ⟨"Request error: " ++ s, rfl,
      Or.inr (Or.inr (Or.inr (Or.inl ⟨s, rfl⟩)))⟩
  | jsonError s =>
    exact ⟨"JSON decode error: " ++ s, rfl,
      Or.inr (Or.inr (Or.inr (Or.inr (Or.inl ⟨s, rfl⟩))))⟩
  | unexpectedError s =>
    exact ⟨"Unexpected error: " ++ s, rfl,
      Or.inr (Or.inr (Or.inr (Or.inr (Or.inr ⟨s, rfl⟩))))⟩

theorem C2_witness :
    (∀ i, i < 5 → ∀ fs, alwaysRequestError i ≠ .ok fs)
    ∧ ((fetch_data_batch alwaysRequestError 0 2000).status = "failed"
       ∧ (fetch_data_batch alwaysRequestError 0 2000).attempts = 5
       ∧ (fetch_data_batch alwaysRequestError 0 2000).features = []
       ∧ ∃ e, (fetch_data_batch alwaysRequestError 0 2000).error = some e
          ∧ (e = "Max retries exceeded" ∨ e = "Empty response"
             ∨ (∃ s, e = "Service error: " ++ s)
             ∨ (∃ s, e = "Request error: " ++ s)
             ∨ (∃ s, e = "JSON decode error: " ++ s)
             ∨ (∃ s, e = "Unexpected error: " ++ s))) :=
  ⟨fun i _ fs h => by simp [alwaysRequestError] at h,
   C2_worker_total_failure alwaysRequestError 0 2000
     (fun i _ fs h => by simp [alwaysRequestError] at h)⟩

/-- Claim C7: if the first `k` attempts (`k ≤ 4`) fail with a retryable
outcome and attempt `k+1` parses a `features` payload (possibly empty), the
worker stops the attempt loop and returns `status="success"` with
`attempts = k+1`; in particular failing the first 2 attempts and succeeding
on the third gives `attempts = 3` (see the witness). -/
theorem C7_worker_success_attempts {α : Type} (o : Nat → AttemptResult α)
    (off bs : Int) (k : Nat) (hk : k ≤ 4)
    (hfail : ∀ i, i < k → ∀ fs, o i ≠ .ok fs)
    (fs : List α) (hsucc : o k = .ok fs) :
    fetch_data_batch o off bs = ⟨"success", off, bs, k + 1, none, fs⟩ := by
  show fetchBatchGo o off bs 5 5 = _
  interval_cases k
  · rw [fetchBatchGo_ok o off bs 5 4 fs hsucc]
  · rw [fetchBatchGo_step o off bs 5 3 (hfail 0 (by omega)),
        fetchBatchGo_ok o off bs 5 3 fs hsucc]
  · rw [fetchBatchGo_step o off bs 5 3 (hfail 0 (by omega)),
        fetchBatchGo_step o off bs 5 2 (hfail 1 (by omega)),
        fetchBatchGo_ok o off bs 5 2 fs hsucc]
  · rw [fetchBatchGo_step o off bs 5 3 (hfail 0 (by omega)),
        fetchBatchGo_step o off bs 5 2 (hfail 1 (by omega)),
        fetchBatchGo_step o off bs 5 1 (hfail 2 (by omega)),
        fetchBatchGo_ok o off bs 5 1 fs hsucc]
  · rw [fetchBatchGo_step o off bs 5 3 (hfail 0 (by omega)),
        fetchBatchGo_step o off bs 5 2 (hfail 1 (by omega)),
        fetchBatchGo_step o off bs 5 1 (hfail 2 (by omega)),
        fetchBatchGo_step o off bs 5 0 (hfail 3 (by omega)),
        fetchBatchGo_ok o off bs 5 0 fs hsucc]

theorem C7_witness :
    ((2 : Nat) ≤ 4
     ∧ (∀ i, i < 2 → ∀ fs, failTwiceThenOk i ≠ .ok fs)
     ∧ failTwiceThenOk 2 = .ok [7])
    ∧ fetch_data_batch failTwiceThenOk 0 2000
      = ⟨"success", 0, 2000, 3, none, [7]⟩ :=
  ⟨⟨by omega,
    fun i hi fs h => by interval_cases i <;> simp [failTwiceThenOk] at h,
    by decide⟩,
   C7_worker_success_attempts failTwiceThenOk 0 2000 2 (by omega)
     (fun i hi fs h => by interval_cases i <;> simp [failTwiceThenOk] at h)
     [7] (by decide)⟩

end LmDpl

namespace LmDpl

lemma numBatches_eq_ediv (total bs : Int) (h1 : 0 < bs) :
    numBatches total bs = (total + bs - 1) / bs := by
  unfold numBatches
  exact Int.fdiv_eq_ediv _ (le_of_lt h1)

lemma numBatches_nonneg (total bs : Int) (h0 : 0 ≤ total) (h1 : 0 < bs) :
    0 ≤ numBatches total bs := by
  rw [numBatches_eq_ediv total bs h1]
  apply Int.ediv_nonneg _ (le_of_lt h1)
  omega

lemma batchWindows_length (total bs : Int) (h0 : 0 ≤ total) (h1 : 0 < bs) :
    ((batchWindows total bs).length : Int) = numBatches total bs := by
  rw [batchWindows, List.length_map, List.length_range]
  exact Int.toNat_of_nonneg (numBatches_nonneg total bs h0 h1)

lemma numBatches_bounds (total bs : Int) (h1 : 0 < bs) :
    total ≤ numBatches total bs * bs ∧ numBatches total bs * bs < total + bs := by
  rw [numBatches_eq_ediv total bs h1]
  constructor
  · have := Int.lt_ediv_add_one_mul_self (total + bs - 1) h1
    nlinarith
  · have := Int.ediv_mul_le (total + bs - 1) (ne_of_gt h1)
    omega

lemma mem_batchWindows (total bs : Int) (w : Int × Int) :
    w ∈ batchWindows total bs ↔
      ∃ i : Nat, i < (numBatches total bs).toNat ∧ w = ((i : Int) * bs, bs) := by
  rw [batchWindows, List.mem_map]
  constructor
  · rintro ⟨a, ha, rfl⟩
    exact ⟨a, List.mem_range.mp ha, rfl⟩
  · rintro ⟨a, ha, rfl⟩
    exact ⟨a, List.mem_range.mpr ha, rfl⟩

/-- Claim C4: for all `totalCount ≥ 0` and `pageSize > 0` the planner
produces exactly `ceil(totalCount/pageSize)` windows (characterised by
`total ≤ n*pageSize < total + pageSize`), the i-th window is
`(i*pageSize, pageSize)` — so offsets are `0, pageSize, 2*pageSize, …` and
every window's declared size equals the requested page size — and every
point of `[0, totalCount)` lies in exactly one window (no gaps, no
overlaps). -/
theorem C4_batch_planner (total bs : Int) (h0 : 0 ≤ total) (h1 : 0 < bs) :
    (total ≤ ((batchWindows total bs).length : Int) * bs
      ∧ ((batchWindows total bs).length : Int) * bs < total + bs)
    ∧ (∀ i : Nat, ∀ h : i < (batchWindows total bs).length,
        (batchWindows total bs).get ⟨i, h⟩ = ((i : Int) * bs, bs))
    ∧ (∀ x : Int, 0 ≤ x → x < total →
        ∃! w, w ∈ batchWindows total bs ∧ w.1 ≤ x ∧ x < w.1 + w.2) := by
  have hlen := batchWindows_length total bs h0 h1
  refine ⟨?_, ?_, ?_⟩
  · rw [hlen]; exact numBatches_bounds total bs h1
  · intro i h
    simp only [batchWindows, List.get_eq_getElem, List.getElem_map,
      List.getElem_range]
  · intro x hx0 hxt
    have hq0 : 0 ≤ x / bs := Int.ediv_nonneg hx0 (le_of_lt h1)
    have hq1 : x / bs < numBatches total bs := by
      rw [Int.ediv_lt_iff_lt_mul h1]
      calc x < total := hxt
        _ ≤ numBatches total bs * bs := (numBatches_bounds total bs h1).1
    refine ⟨((x / bs) * bs, bs), ⟨?_, ?_, ?_⟩, ?_⟩
    · rw [mem_batchWindows]
      refine ⟨(x / bs).toNat, by omega, ?_⟩
      rw [Int.toNat_of_nonneg hq0]
    · exact Int.ediv_mul_le x (ne_of_gt h1)
    · show x < x / bs * bs + bs
      have := Int.lt_ediv_add_one_mul_self x h1
      nlinarith
    · rintro ⟨w1, w2⟩ ⟨hmem, hle, hlt⟩
      rw [mem_batchWindows] at hmem
      obtain ⟨j, hj, hw⟩ := hmem
      rw [Prod.mk.injEq] at hw
      obtain ⟨hw1, hw2⟩ := hw
      simp only at hle hlt
      rw [hw1] at hle
      rw [hw1, hw2] at hlt
      have hj1 : (j : Int) ≤ x / bs := by
        rw [Int.le_ediv_iff_mul_le h1]
        exact hle
      have hj2 : x / bs < (j : Int) + 1 := by
        rw [Int.ediv_lt_iff_lt_mul h1]
        nlinarith
      have hjq : (j : Int) = x / bs := by omega
      rw [Prod.mk.injEq]
      refine ⟨?_, hw2⟩
      rw [hw1, ← hjq]

theorem C4_witness :
    ((0 : Int) ≤ 4500 ∧ (0 : Int) < 2000
     ∧ batchWindows 4500 2000 = [(0, 2000), (2000, 2000), (4000, 2000)])
    ∧ ((4500 ≤ ((batchWindows 4500 2000).length : Int) * 2000
        ∧ ((batchWindows 4500 2000).length : Int) * 2000 < 4500 + 2000)
       ∧ (∀ i : Nat, ∀ h : i < (batchWindows 4500 2000).length,
           (batchWindows 4500 2000).get ⟨i, h⟩ = ((i : Int) * 2000, 2000))
       ∧ (∀ x : Int, 0 ≤ x → x < 4500 →
           ∃! w, w ∈ batchWindows 4500 2000 ∧ w.1 ≤ x ∧ x < w.1 + w.2)) :=
  ⟨⟨by decide, by decide, by decide⟩,
   C4_batch_planner 4500 2000 (by decide) (by decide)⟩

end LmDpl

namespace LmDpl

lemma fetch_data_success_eq {α : Type} (total : Int) (bs : Int)
    (o1 o2 : Int → Nat → AttemptResult α) (hbs : bs ≠ 0) :
    fetch_data (.success (some total)) bs o1 o2 =
      ⟨some ((((fetchWave1 total bs o1).filter isSuccess).map
                (fun b => b.features)).flatten
              ++ (((fetchWave2 total bs o1 o2).filter isSuccess).map
                (fun b => b.features)).flatten),
       batchWindows total bs,
       if (fetchPersistent total bs o1 o2).isEmpty then none
       else some ⟨numBatches total bs,
                  ((fetchWave1 total bs o1).filter isSuccess).length
                    + ((fetchWave2 total bs o1 o2).filter
                        isSuccess).length,
                  fetchPersistent total bs o1 o2⟩⟩ := by
  show (if bs = 0 then _ else _) = _
  rw [if_neg hbs]
  rfl

/-- Claim C1: for every fetch run (successful count, non-zero batch size),
the returned FeatureCollection is exactly the concatenation of the features
of the successful batch outcomes of the initial wave and the recovery wave,
so its feature count equals the sum of `len(outcome.features)` over the
successful outcomes of both waves; the merged result is returned as a
success (`some`), unconditionally — in particular even when
`fetchPersistent` is non-empty, i.e. when some batches remain permanently
failed. -/
theorem C1_fetch_merges_successes {α : Type} (total : Int) (bs : Int)
    (o1 o2 : Int → Nat → AttemptResult α) (hbs : bs ≠ 0) :
    ∃ fs, (fetch_data (.success (some total)) bs o1 o2).result = some fs
      ∧ fs = (((fetchWave1 total bs o1).filter isSuccess).map
                (fun b => b.features)).flatten
             ++ (((fetchWave2 total bs o1 o2).filter isSuccess).map
                (fun b => b.features)).flatten
      ∧ fs.length
          = (((fetchWave1 total bs o1).filter isSuccess).map
              (fun b => b.features.length)).sum
            + (((fetchWave2 total bs o1 o2).filter isSuccess).map
              (fun b => b.features.length)).sum := by
  rw [fetch_data_success_eq total bs o1 o2 hbs]
  refine ⟨_, rfl, rfl, ?_⟩
  rw [List.length_append, List.length_flatten, List.length_flatten,
    List.map_map, List.map_map]
  rfl

theorem C1_witness :
    ((2000 : Int) ≠ 0)
    ∧ ∃ fs, (fetch_data (.success (some 4000)) 2000
          netFirstWindowOk netAllFail).result = some fs
      ∧ fs = (((fetchWave1 4000 2000 netFirstWindowOk).filter isSuccess).map
                (fun b => b.features)).flatten
             ++ (((fetchWave2 4000 2000 netFirstWindowOk netAllFail).filter
                isSuccess).map (fun b => b.features)).flatten
      ∧ fs.length
          = (((fetchWave1 4000 2000 netFirstWindowOk).filter isSuccess).map
              (fun b => b.features.length)).sum
            + (((fetchWave2 4000 2000 netFirstWindowOk netAllFail).filter
              isSuccess).map (fun b => b.features.length)).sum :=
  ⟨by decide,
   C1_fetch_merges_successes 4000 2000 netFirstWindowOk netAllFail (by decide)⟩

/-- Claim C6: if the count-only query fails, `fetch_data` fails immediately
for that endpoint — it returns `None` — with no batch window planned or
dispatched and no ledger written, whatever the batch network would have
answered. -/
theorem C6_count_failure_aborts {α : Type} (bs : Int)
    (o1 o2 : Int → Nat → AttemptResult α) :
    fetch_data .failure bs o1 o2 = ⟨none, [], none⟩ := rfl

/-- Claim C10: if the count-only query parses but has no "count" key,
`get_total_count` returns 0 instead of a failure, and `fetch_data` with the
default `batch_size = 2000` then completes as a successful fetch returning
an empty FeatureCollection, with zero windows dispatched and no ledger
entry, rather than treating the missing count as fatal. -/
theorem C10_missing_count_defaults_zero {α : Type}
    (o1 o2 : Int → Nat → AttemptResult α) :
    get_total_count (.success none) = some 0
    ∧ fetch_data (.success none) 2000 o1 o2 = ⟨some [], [], none⟩ := by
  constructor
  · rfl
  · rfl

end LmDpl

namespace LmDpl

/-- Claim C3: after the initial wave the coordinator re-dispatches exactly
the failed windows once more through the worker with a fresh retry budget
(every recovery outcome uses at most 5 attempts); the failure-ledger file
is written if and only if some windows fail in both waves, and in that case
the entry's `persistent_failures` list is exactly the list of recovery-wave
outcomes that failed again (hence the outcomes that failed both waves). -/
theorem C3_recovery_and_ledger {α : Type} (total bs : Int)
    (o1 o2 : Int → Nat → AttemptResult α) (hbs : bs ≠ 0) :
    fetchWave2 total bs o1 o2
      = (fetchFailed1 total bs o1).map
          (fun b => fetch_data_batch (o2 b.offset) b.offset b.batch_size)
    ∧ (∀ b ∈ fetchWave2 total bs o1 o2, b.attempts ≤ 5)
    ∧ ((fetch_data (.success (some total)) bs o1 o2).ledgerEntry.isSome
        ↔ fetchPersistent total bs o1 o2 ≠ [])
    ∧ (∀ e, (fetch_data (.success (some total)) bs o1 o2).ledgerEntry = some e
        → e.persistent_failures = fetchPersistent total bs o1 o2) := by
  refine ⟨?_, ?_, ?_, ?_⟩
  · unfold fetchWave2 runWave
    rw [List.map_map]
    rfl
  · intro b hb
    simp only [fetchWave2, runWave] at hb
    rw [List.mem_map] at hb
    obtain ⟨w, hw, rfl⟩ := hb
    exact fetchBatchGo_attempts_le (o2 w.1) w.1 w.2 5 5 (le_refl 5)
  · rw [fetch_data_success_eq total bs o1 o2 hbs]
    by_cases hp : (fetchPersistent total bs o1 o2).isEmpty
    · rw [if_pos hp]
      simp only [Option.isSome_none, Bool.false_eq_true, false_iff, ne_eq,
        not_not]
      exact List.isEmpty_iff.mp hp
    · rw [if_neg hp]
      simp only [Option.isSome_some, true_iff, ne_eq]
      intro hcon
      exact hp (by rw [hcon]; rfl)
  · intro e he
    rw [fetch_data_success_eq total bs o1 o2 hbs] at he
    by_cases hp : (fetchPersistent total bs o1 o2).isEmpty
    · rw [if_pos hp] at he
      cases he
    · rw [if_neg hp] at he
      cases he
      rfl

theorem C3_witness :
    ((2000 : Int) ≠ 0)
    ∧ (fetchWave2 4000 2000 netAllFail netAllFail
        = (fetchFailed1 4000 2000 netAllFail).map
            (fun b => fetch_data_batch (netAllFail b.offset) b.offset
              b.batch_size)
       ∧ (∀ b ∈ fetchWave2 4000 2000 netAllFail netAllFail, b.attempts ≤ 5)
       ∧ ((fetch_data (.success (some 4000)) 2000 netAllFail
            netAllFail).ledgerEntry.isSome
           ↔ fetchPersistent 4000 2000 netAllFail netAllFail ≠ [])
       ∧ (∀ e, (fetch_data (.success (some 4000)) 2000 netAllFail
            netAllFail).ledgerEntry = some e
           → e.persistent_failures
              = fetchPersistent 4000 2000 netAllFail netAllFail)) :=
  ⟨by decide, C3_recovery_and_ledger 4000 2000 netAllFail netAllFail (by decide)⟩

/-- Claim C8 counterexample: a negative totalCount is not rejected with an
invalid-argument failure; planning produces a window list (the empty one)
and the fetch completes successfully with an empty FeatureCollection
instead of surfacing any error. -/
theorem C8_counterexample :
    batchWindows (-5) 2000 = []
    ∧ fetch_data (.success (some (-5))) 2000 netAllFail netAllFail
        = ⟨some [], [], none⟩ := by
  exact ⟨by decide, by decide⟩

/-- Claim C8 amended: the planner performs no argument validation.  A
negative totalCount with a positive pageSize yields an empty window list
and a successful empty fetch; pageSize = 0 makes the fetch return `None`
only because the `ZeroDivisionError` is caught by the generic handler, not
through an explicit invalid-argument rejection. -/
theorem C8_planner_no_validation {α : Type} (total bs : Int)
    (o1 o2 : Int → Nat → AttemptResult α)
    (hneg : total < 0) (hpos : 0 < bs) :
    batchWindows total bs = []
    ∧ fetch_data (.success (some total)) bs o1 o2 = ⟨some [], [], none⟩
    ∧ (∀ t : Int, ∀ o1' o2' : Int → Nat → AttemptResult α,
        fetch_data (.success (some t)) 0 o1' o2' = ⟨none, [], none⟩) := by
  have hq : numBatches total bs ≤ 0 := by
    rw [numBatches_eq_ediv total bs hpos]
    by_contra hcon
    push_neg at hcon
    have h1q : (1 : Int) ≤ (total + bs - 1) / bs := hcon
    have := (Int.le_ediv_iff_mul_le hpos).mp h1q
    omega
  have hw : batchWindows total bs = [] := by
    unfold batchWindows
    rw [Int.toNat_eq_zero.mpr hq]
    rfl
  refine ⟨hw, ?_, fun t o1' o2' => rfl⟩
  rw [fetch_data_success_eq total bs o1 o2 (by omega)]
  simp [fetchPersistent, fetchWave2, fetchFailed1, fetchWave1, runWave, hw]

/-- Claim C5 counterexample: two ledger entries whose replays leave
different still-failing windows produce identical returned values, so the
residual list of still-failing windows is not part of the returned result —
a still-failing window is silently absent from what the caller gets back
(it is only printed). -/
theorem C5_counterexample :
    retry_failed_batches (.entry [failedBatchAt0]) netZeroFails
      = retry_failed_batches (.entry [failedBatchAt2000]) netZeroFails
    ∧ retryStillFailed [failedBatchAt0] netZeroFails ≠ []
    ∧ retryStillFailed [failedBatchAt2000] netZeroFails = [] :=
  ⟨by decide, by decide, by decide⟩

/-- Claim C5 amended: ledger recovery replays exactly the failed windows
recorded in the entry, returns a FeatureCollection holding exactly the
features of the replays that now succeed, and accounts for every recorded
window either as a success or in the still-failed list — which is computed
and logged, but not part of the returned value. -/
theorem C5_retry_partition {α : Type} (pf : List (BatchOutcome α))
    (net : Int → Nat → AttemptResult α) (h : pf ≠ []) :
    (retryOutcomes pf net).map (fun b => (b.offset, b.batch_size))
      = pf.map (fun b => (b.offset, b.batch_size))
    ∧ retry_failed_batches (.entry pf) net
      = some ((((retryOutcomes pf net).filter isSuccess).map
          (fun b => b.features)).flatten)
    ∧ ((retryOutcomes pf net).filter isSuccess).length
        + (retryStillFailed pf net).length = pf.length := by
  refine ⟨?_, ?_, ?_⟩
  · unfold retryOutcomes
    rw [List.map_map]
    apply List.map_congr_left
    intro b _
    show ((fetch_data_batch (net b.offset) b.offset b.batch_size).offset,
      (fetch_data_batch (net b.offset) b.offset b.batch_size).batch_size)
        = (b.offset, b.batch_size)
    have := fetchBatchGo_echo (net b.offset) b.offset b.batch_size 5 5
    rw [Prod.mk.injEq]
    exact ⟨this.1, this.2⟩
  · show (if pf.isEmpty then none else some _) = some _
    rw [if_neg]
    simp [List.isEmpty_iff, h]
  · have hp := List.length_eq_length_filter_add
      (l := retryOutcomes pf net) isSuccess
    have hlm : (retryOutcomes pf net).length = pf.length := by
      unfold retryOutcomes
      rw [List.length_map]
    unfold retryStillFailed
    omega

theorem C8_witness :
    ((-5 : Int) < 0 ∧ (0 : Int) < 2000)
    ∧ (batchWindows (-5) 2000 = []
       ∧ fetch_data (.success (some (-5))) 2000 netAllOkEmpty netAllOkEmpty
          = ⟨some [], [], none⟩
       ∧ (∀ t : Int, ∀ o1' o2' : Int → Nat → AttemptResult Nat,
           fetch_data (.success (some t)) 0 o1' o2' = ⟨none, [], none⟩)) :=
  ⟨⟨by decide, by decide⟩,
   C8_planner_no_validation (-5) 2000 netAllOkEmpty netAllOkEmpty
     (by decide) (by decide)⟩

theorem C5_witness :
    ([failedBatchAt0] ≠ ([] : List (BatchOutcome Nat)))
    ∧ ((retryOutcomes [failedBatchAt0] netZeroFails).map
          (fun b => (b.offset, b.batch_size))
        = [failedBatchAt0].map (fun b => (b.offset, b.batch_size))
       ∧ retry_failed_batches (.entry [failedBatchAt0]) netZeroFails
        = some ((((retryOutcomes [failedBatchAt0] netZeroFails).filter
            isSuccess).map (fun b => b.features)).flatten)
       ∧ ((retryOutcomes [failedBatchAt0] netZeroFails).filter
            isSuccess).length
          + (retryStillFailed [failedBatchAt0] netZeroFails).length
          = [failedBatchAt0].length) :=
  ⟨by decide, C5_retry_partition [failedBatchAt0] netZeroFails (by decide)⟩

/-- Claim C9: for an endpoint whose probe request times out with
`timeout = 5`, the connectivity report's entry has `status = "error"`, an
error message mentioning the timeout, and a `response_time` that is neither
null nor negative; and the report still maps every configured endpoint, so
the timeout does not abort probing of the others. -/
theorem C9_probe_timeout (services : List String) (net : String → ProbeResult)
    (s : String) (hs : s ∈ services) (ht : net s = .timedOut) :
    ∃ entry, (s, entry) ∈ test_endpoints 5 services net
      ∧ entry.status = "error"
      ∧ (∃ pre post, entry.error = some (pre ++ "timeout" ++ post))
      ∧ (∃ q, entry.response_time = some q ∧ 0 ≤ q)
      ∧ (test_endpoints 5 services net).map Prod.fst = services := by
  refine ⟨probeService 5 s .timedOut, ?_, rfl, ?_, ?_, ?_⟩
  · unfold test_endpoints
    rw [List.mem_map]
    exact ⟨s, hs, by rw [ht]⟩
  · exact ⟨"Request ", " after 5 seconds", rfl⟩
  · exact ⟨((5 : Int) : ℚ), rfl, by norm_num⟩
  · unfold test_endpoints
    rw [List.map_map]
    have hid : (Prod.fst ∘ fun v : String => (v, probeService 5 v (net v)))
        = id := rfl
    rw [hid, List.map_id]

theorem C9_witness :
    ("taxlots" ∈ ["taxlots", "zoning"]
     ∧ probeNetTaxlotsTimesOut "taxlots" = .timedOut)
    ∧ ∃ entry, ("taxlots", entry)
        ∈ test_endpoints 5 ["taxlots", "zoning"] probeNetTaxlotsTimesOut
      ∧ entry.status = "error"
      ∧ (∃ pre post, entry.error = some (pre ++ "timeout" ++ post))
      ∧ (∃ q, entry.response_time = some q ∧ 0 ≤ q)
      ∧ (test_endpoints 5 ["taxlots", "zoning"] probeNetTaxlotsTimesOut).map
          Prod.fst = ["taxlots", "zoning"] :=
  ⟨⟨by decide, by decide⟩,
   C9_probe_timeout ["taxlots", "zoning"] probeNetTaxlotsTimesOut "taxlots"
     (by decide) (by decide)⟩

end LmDpl
